import Mathlib

/-!
Verification of the query-answering core of the `reflex-water-app` sensor
monitoring assistant.  The Python sources under `water_app/ai_engine/` are
shallowly embedded as executable Lean definitions over `ℚ` (Python floats
appearing in the audited arithmetic), `List` (Python lists), and `String`/
`List Char` (response texts).  Each definition's doc comment names the Python
function it translates.

Regex-driven extraction of numbers/phrases from free text is represented by
passing the extracted values as explicit arguments to the check functions;
the decision logic applied to those values (thresholds, ranges, confidence
accounting) is embedded verbatim from the source.
-/

namespace WaterApp

/-! ## Audit & Reinforcement Engine (`audit_agent_system.py`) -/

/-- Embeds `AgentPerformanceGrade` enum from `audit_agent_system.py`. -/
inductive AgentPerformanceGrade
  | excellent  -- "A+"
  | good       -- "A"
  | average    -- "B"
  | poor       -- "C"
  | fail       -- "F"
  deriving DecidableEq, Repr

/-- Rank of a grade (higher is better); used to state monotonicity of
grade assignment. -/
def gradeRank : AgentPerformanceGrade → ℕ
  | .excellent => 4
  | .good => 3
  | .average => 2
  | .poor => 1
  | .fail => 0

/-- Embeds `AuditAgent._calculate_overall_score`: weighted sum of the five
sub-scores scaled to 0..100 and clamped, `min(max(weighted_score, 0.0), 100.0)`. -/
def calculate_overall_score (dataQuality taskCompletion accuracy efficiency innovation : ℚ) : ℚ :=
  let weighted_score :=
    (dataQuality * (25/100) + taskCompletion * (30/100) + accuracy * (25/100) +
      efficiency * (15/100) + innovation * (5/100)) * 100
  min (max weighted_score 0) 100

/-- Embeds `AuditAgent._assign_grade`: letter grade from the overall score. -/
def assign_grade (overall_score : ℚ) : AgentPerformanceGrade :=
  if overall_score ≥ 95 then .excellent
  else if overall_score ≥ 85 then .good
  else if overall_score ≥ 70 then .average
  else if overall_score ≥ 50 then .poor
  else .fail

/-- The `recent_scores` update inside
`ReinforcementLearningSystem._update_learning_history`:
`history.recent_scores.append(score)` followed by
`if len(...) > 10: recent_scores.pop(0)`. -/
def update_recent_scores (scores : List ℚ) (score : ℚ) : List ℚ :=
  let appended := scores ++ [score]
  if 10 < appended.length then appended.tail else appended

/-- The retained `recent_scores` window after a whole sequence of audits of
the same agent, starting from the fresh (empty) history. -/
def recent_scores_after (overallScores : List ℚ) : List ℚ :=
  overallScores.foldl update_recent_scores []

/-- Learning-rate update in
`ReinforcementLearningSystem._apply_reinforcement_learning`
(`learning_decay = 0.95`, `min_learning_rate = 0.01`). -/
def update_learning_rate (overall_score learning_rate : ℚ) : ℚ :=
  if overall_score < 60 then min (3/10) (learning_rate * (12/10))
  else if overall_score > 85 then max (1/100) (learning_rate * (95/100))
  else learning_rate

/-- Penalty-multiplier update in
`ReinforcementLearningSystem._apply_reinforcement_learning`
(`penalty_amplifier = 1.2`). -/
def update_penalty_multiplier (overall_score penalty_multiplier : ℚ) : ℚ :=
  if overall_score < 50 then min 3 (penalty_multiplier * (12/10))
  else if overall_score > 80 then max 1 (penalty_multiplier * (9/10))
  else penalty_multiplier

/-! ## Completeness Analyzer (`real_data_audit_system.py`) -/

/-- Embeds `RealDataAuditSystem.quality_grades`: ordered (dict insertion order)
band table mapping `(min_ratio, max_ratio)` to a grade name. -/
def quality_grades : List ((ℚ × ℚ) × String) :=
  [((98/100, 1), "EXCELLENT"),
   ((95/100, 98/100), "GOOD"),
   ((90/100, 95/100), "AVERAGE"),
   ((80/100, 90/100), "POOR"),
   ((0, 80/100), "CRITICAL")]

/-- Embeds `RealDataAuditSystem._assign_quality_grade`: first band (in table order)
with `min_ratio <= completeness_ratio <= max_ratio`, else "UNKNOWN". -/
def assign_quality_grade (c : ℚ) : String :=
  match quality_grades.find?
      (fun p => decide (p.1.1 ≤ c ∧ c ≤ p.1.2)) with
  | some p => p.2
  | none => "UNKNOWN"

/-- Embeds `analyze_sensor_data_gaps` step 3: expected timestamps not present among
the actual (distinct, minute-truncated) timestamps. -/
def missing_timestamps (expected actual : List ℕ) : List ℕ :=
  expected.filter (fun ts => ¬ ts ∈ actual)

/-- Embeds the `completeness_ratio` computation of `analyze_sensor_data_gaps`:
`completeness_ratio = actual_data_points / expected_data_points`, where the
counts are the lengths of the actual and expected timestamp lists. -/
def completeness_value (expected actual : List ℕ) : ℚ :=
  (actual.length : ℚ) / (expected.length : ℚ)

/-! ## Hallucination guard (`hallucination_prevention.py`) -/

/-- Issues raised by the validation checks of
`HallucinationPrevention.validate_response` (one constructor per distinct
issue message appended by the source). -/
inductive Issue
  | kbMismatch (kbVal respVal : ℚ)      -- "지식 베이스와 불일치: ..."
  | impossibleTemp (t : ℚ)              -- "불가능한 온도: ..."
  | unrealisticTemp (t : ℚ)             -- "비현실적인 온도: ..."
  | negativePressure (p : ℚ)            -- "음수 압력: ..."
  | unrealisticPressure (p : ℚ)         -- "비현실적인 압력: ..."
  | impossiblePH (v : ℚ)                -- "불가능한 pH: ..."
  | unknownSensor (tag : String)        -- "알 수 없는 센서: ..."
  | wrongUnit (tag : String)            -- "...에 잘못된 단위 사용: ..."
  | futureTenseOnHistorical             -- "과거 데이터에 대해 미래 시제 사용"
  | logicalContradiction                -- "논리적 모순: ..."
  | overconfidentExpression             -- "과도한 확신 표현 감지"
  deriving DecidableEq, Repr

/-- Embeds `HallucinationPrevention._check_against_knowledge_base` inner loops:
first pair of a knowledge-base number and a response number with
`abs(kb_val) > 0.01` and `abs(kb_val - resp_val) / abs(kb_val) > 0.5`;
`is_consistent` iff no such pair exists.  The numbers are the regex
(`-?\d+\.?\d*`) extractions from the KB row content and from the response. -/
def kb_mismatch (kbNumbers respNumbers : List ℚ) : Option (ℚ × ℚ) :=
  kbNumbers.findSome? fun kbVal =>
    respNumbers.findSome? fun respVal =>
      if |kbVal| > 1/100 ∧ |kbVal - respVal| / |kbVal| > 1/2 then
        some (kbVal, respVal)
      else none

/-- Embeds `HallucinationPrevention._validate_numeric_consistency`, applied to the
°C-, bar- and pH-tagged numbers extracted from the response text. -/
def numeric_consistency_issues (temps pressures phs : List ℚ) : List Issue :=
  (temps.foldl (fun acc t =>
      if t < -(27315/100) then acc ++ [Issue.impossibleTemp t]
      else if t > 1000 then acc ++ [Issue.unrealisticTemp t]
      else acc) [])
  ++ (pressures.foldl (fun acc p =>
      if p < 0 then acc ++ [Issue.negativePressure p]
      else if p > 100 then acc ++ [Issue.unrealisticPressure p]
      else acc) [])
  ++ (phs.foldl (fun acc v =>
      if v < 0 ∨ v > 14 then acc ++ [Issue.impossiblePH v]
      else acc) [])

/-- Embeds `HallucinationPrevention._validate_sensor_ranges`: one issue per sensor
identifier mentioned in the response whose QC-rule lookup returned no row
(the DB lookup is abstracted as the list of such identifiers). -/
def sensor_range_issues (unknownSensors : List String) : List Issue :=
  unknownSensors.map Issue.unknownSensor

/-- Embeds `HallucinationPrevention._validate_sensor_unit_consistency`: one issue
per sensor identifier mentioned with a unit that contradicts its canonical
type (the regex context-window scan is abstracted as that list). -/
def unit_consistency_issues (wrongUnitSensors : List String) : List Issue :=
  wrongUnitSensors.map Issue.wrongUnit

/-- Embeds `HallucinationPrevention._validate_temporal_consistency`: invalid iff the
context is flagged historical and the response contains one of the
future-tense patterns. -/
def temporal_inconsistent (isHistorical hasFuturePattern : Bool) : Bool :=
  isHistorical && hasFuturePattern

/-- Embeds `HallucinationPrevention._check_certainty_expressions`: overconfident iff
more than two overconfident phrases occur and no uncertainty phrase does. -/
def certainty_overconfident (overconfidentCount uncertaintyCount : ℕ) : Bool :=
  2 < overconfidentCount && uncertaintyCount == 0

/-- Embeds `ValidationResult` dataclass of `hallucination_prevention.py`.  The
`metadata` stamp (a wall-clock timestamp plus the constant list of check
names) and the parallel `suggestions` list of free-text hints are omitted:
no validated property reads them and they feed nothing else. -/
structure ValidationResult where
  is_valid : Bool
  confidence : ℚ
  issues : List Issue
  deriving Repr

/-- One accumulation step of `validate_response`: on a failed check, append
that check's issues and scale the running confidence by the check's factor;
otherwise leave the state unchanged. -/
def vstep (st : List Issue × ℚ) (failed : Bool) (iss : List Issue) (factor : ℚ) :
    List Issue × ℚ :=
  if failed then (st.1 ++ iss, st.2 * factor) else st

/-- Check 1 of `validate_response` (fact check against the knowledge base,
run only when `knowledge_base_ids` were passed): outcome flag, issues and
confidence factor. -/
def kb_check_entry (kb : Option (List ℚ × List ℚ)) : Bool × List Issue × ℚ :=
  match kb with
  | none => (false, [], 5/10)
  | some (kbNumbers, respNumbers) =>
    match kb_mismatch kbNumbers respNumbers with
    | some (kbVal, respVal) => (true, [Issue.kbMismatch kbVal respVal], 5/10)
    | none => (false, [], 5/10)

/-- The six checks of `HallucinationPrevention.validate_response`, in source
order, each as (failed flag, issues appended on failure, confidence factor):
1 fact check (×0.5), 2 numeric consistency (×0.7), 3 sensor ranges (×0.8),
3.5 sensor-unit consistency (×0.5), 4 temporal consistency (×0.9),
5 logical contradictions (×0.6), 6 certainty expressions (×0.85). -/
def validation_checks (kb : Option (List ℚ × List ℚ))
    (temps pressures phs : List ℚ)
    (unknownSensors wrongUnitSensors : List String)
    (isHistorical hasFuturePattern : Bool)
    (contradictionFound : Bool)
    (overconfidentCount uncertaintyCount : ℕ) : List (Bool × List Issue × ℚ) :=
  let numIss := numeric_consistency_issues temps pressures phs
  let senIss := sensor_range_issues unknownSensors
  let unitIss := unit_consistency_issues wrongUnitSensors
  [kb_check_entry kb,
   (!numIss.isEmpty, numIss, 7/10),
   (!senIss.isEmpty, senIss, 8/10),
   (!unitIss.isEmpty, unitIss, 5/10),
   (temporal_inconsistent isHistorical hasFuturePattern,
     [Issue.futureTenseOnHistorical], 9/10),
   (contradictionFound, [Issue.logicalContradiction], 6/10),
   (certainty_overconfident overconfidentCount uncertaintyCount,
     [Issue.overconfidentExpression], 85/100)]

/-- Embeds `HallucinationPrevention.validate_response`: starting from no issues and
confidence `1.0`, run the checks in source order, accumulating issues and
multiplying the confidence on each failure; `is_valid` iff no issue was
raised.  Arguments are the values the source extracts from the
response/context before deciding each check: `kb` is `None` when no
`knowledge_base_ids` were passed, otherwise the KB-content numbers paired
with the response numbers; `temps`/`pressures`/`phs` are the unit-tagged
numbers in the response; `unknownSensors` and `wrongUnitSensors` are the
identifier scans of checks 3 and 3.5; `contradictionFound` is the outcome of
`_check_logical_contradictions`. -/
def validate_response (kb : Option (List ℚ × List ℚ))
    (temps pressures phs : List ℚ)
    (unknownSensors wrongUnitSensors : List String)
    (isHistorical hasFuturePattern : Bool)
    (contradictionFound : Bool)
    (overconfidentCount uncertaintyCount : ℕ) : ValidationResult :=
  let st := (validation_checks kb temps pressures phs unknownSensors
      wrongUnitSensors isHistorical hasFuturePattern contradictionFound
      overconfidentCount uncertaintyCount).foldl
    (fun st c => vstep st c.1 c.2.1 c.2.2) ([], 1)
  { is_valid := st.1.isEmpty
    confidence := st.2
    issues := st.1 }

/-! ## Rule-violation severity (`enhanced_agent_orchestrator.py`,
`response_validator.py`) -/

/-- Severity labels produced by `_collect_qc_focused_data`. -/
inductive Severity
  | critical
  | warning
  | violation
  | normal  -- the `else: continue` branch: no violation recorded
  deriving DecidableEq, Repr

/-- The tiered threshold comparison in
`EnhancedAgentOrchestrator._collect_qc_focused_data` (values already coerced
to floats, with the dict-lookup defaults applied by the caller). -/
def classify_severity (value min_val max_val warn_min warn_max crit_min crit_max : ℚ) :
    Severity :=
  if value > crit_max ∨ value < crit_min then .critical
  else if value > warn_max ∨ value < warn_min then .warning
  else if value > max_val ∨ value < min_val then .violation
  else .normal

/-- Python truthiness of an optional float: `None` and `0.0` are falsy. -/
def truthy : Option ℚ → Bool
  | none => false
  | some x => x ≠ 0

/-- The status determination in
`ResponseValidator.create_structured_response`: note the guards are Python
`and`-chains (`crit_min and float_value < float(crit_min)`), so a bound that
is `None` **or equal to `0.0`** is skipped. -/
def sensor_status (value : ℚ) (warn_min warn_max crit_min crit_max : Option ℚ) : String :=
  if (truthy crit_min && decide (value < crit_min.getD 0))
      || (truthy crit_max && decide (value > crit_max.getD 0)) then "critical"
  else if (truthy warn_min && decide (value < warn_min.getD 0))
      || (truthy warn_max && decide (value > warn_max.getD 0)) then "warning"
  else "normal"

/-! ## Dynamic Query Translator (`dynamic_rag_engine.py`)

The `time_mappings` regexes all have the shape
`tok₁ \s* tok₂ \s* …` where each token is either a literal or the single
capture group `(\d+)`; they are embedded as token lists and matched by a
direct scan (leftmost match, as `re.search`). -/

/-- One token of a `time_mappings` regex. -/
inductive Tok
  | lit (s : String)   -- a literal fragment
  | num                -- the capture group `(\d+)`
  deriving Repr

/-- Drop leading `\s*` whitespace. -/
def skipSpaces : List Char → List Char
  | c :: cs => if c.isWhitespace then skipSpaces cs else c :: cs
  | [] => []

/-- Numeric value of a digit run (Python `int(...)` on the capture group). -/
def digitsToNat (ds : List Char) : ℕ :=
  ds.foldl (fun acc c => acc * 10 + (c.toNat - 48)) 0

/-- Decimal rendering of a natural number (Python `str(...)`), written with
structural recursion so that it evaluates inside the kernel. -/
def natToDigits : ℕ → ℕ → List Char
  | 0, _ => []
  | fuel + 1, n =>
    if n < 10 then [Char.ofNat (48 + n)]
    else natToDigits fuel (n / 10) ++ [Char.ofNat (48 + n % 10)]

/-- Decimal rendering of a natural number as a string. -/
def natToString (n : ℕ) : String :=
  String.mk (natToDigits (n + 1) n)

/-- Consume a non-empty run of digits; return its value and the rest. -/
def takeDigits : List Char → Option (ℕ × List Char)
  | cs =>
    let ds := cs.takeWhile Char.isDigit
    if ds.isEmpty then none
    else some (digitsToNat ds, cs.dropWhile Char.isDigit)

/-- Match a token sequence at the start of `cs`, interleaving `\s*` between
tokens; returns the value of the capture group if the pattern has one. -/
def matchToksAt : List Tok → List Char → Option (Option ℕ)
  | [], _ => some none
  | Tok.lit s :: rest, cs =>
    if s.data.isPrefixOf cs then
      matchToksAt rest (skipSpaces (cs.drop s.length))
    else none
  | Tok.num :: rest, cs =>
    match takeDigits cs with
    | some (n, cs') =>
      match matchToksAt rest (skipSpaces cs') with
      | some none => some (some n)
      | other => other
    | none => none

/-- Models `re.search`: leftmost match of the token pattern anywhere in the text. -/
def searchToks (toks : List Tok) : List Char → Option (Option ℕ)
  | [] => matchToksAt toks []
  | c :: cs =>
    match matchToksAt toks (c :: cs) with
    | some r => some r
    | none => searchToks toks cs

/-- One entry of the `time_mappings` dict in `parse_time_query`:
pattern, time unit (or literal interval) and recommended view. -/
structure TimeMapping where
  toks : List Tok
  unit : String
  view : String

/-- The `time_mappings` dict of `parse_time_query`, in insertion order. -/
def time_mappings : List TimeMapping :=
  [⟨[.lit "최근", .num, .lit "분"], "minutes", "influx_latest"⟩,
   ⟨[.lit "최근", .num, .lit "시간"], "hours", "influx_agg_1m"⟩,
   ⟨[.lit "지난", .num, .lit "시간"], "hours", "influx_agg_10m"⟩,
   ⟨[.lit "최근", .num, .lit "일"], "days", "influx_agg_1h"⟩,
   ⟨[.lit "지난", .num, .lit "일"], "days", "influx_agg_1h"⟩,
   ⟨[.lit "최근", .num, .lit "주"], "weeks", "influx_agg_1h"⟩,
   ⟨[.lit "최근", .num, .lit "개월"], "months", "influx_agg_1d"⟩,
   ⟨[.lit "어제"], "1 day", "influx_agg_10m"⟩,
   ⟨[.lit "오늘"], "1 day", "influx_agg_1m"⟩,
   ⟨[.lit "이번", .lit "주"], "1 week", "influx_agg_1h"⟩,
   ⟨[.lit "이번", .lit "달"], "1 month", "influx_agg_1h"⟩,
   ⟨[.lit "last", .num, .lit "minute"], "minutes", "influx_latest"⟩,
   ⟨[.lit "last", .num, .lit "hour"], "hours", "influx_agg_1m"⟩,
   ⟨[.lit "last", .num, .lit "day"], "days", "influx_agg_10m"⟩,
   ⟨[.lit "last", .num, .lit "week"], "weeks", "influx_agg_1h"⟩,
   ⟨[.lit "last", .num, .lit "month"], "months", "influx_agg_1d"⟩]

/-- The pattern loop of `parse_time_query`: first mapping (in dict order)
whose regex matches the question, together with its capture group. -/
def find_time_mapping (query : String) : Option (TimeMapping × Option ℕ) :=
  time_mappings.findSome? fun m =>
    match searchToks m.toks query.data with
    | some g => some (m, g)
    | none => none

/-- The `(time_interval, view)` result of the pattern loop of
`parse_time_query`, defaults `('1 hour', 'influx_agg_1m')` when nothing
matches; a match without a capture group maps unit `'1 day'` to `'24 hours'`. -/
def resolve_time (query : String) : String × String :=
  match find_time_mapping query with
  | some (m, some n) => (natToString n ++ " " ++ m.unit, m.view)
  | some (m, none) => ((if m.unit = "1 day" then "24 hours" else m.unit), m.view)
  | none => ("1 hour", "influx_agg_1m")

/-- Containment of one character list inside another. -/
def listContains (needle : List Char) : List Char → Bool
  | [] => needle.isPrefixOf []
  | c :: cs => needle.isPrefixOf (c :: cs) || listContains needle cs

/-- Python `a in b` (substring containment). -/
def strContains (haystack needle : String) : Bool :=
  listContains needle.data haystack.data

/-- Python `str.upper()` (ASCII case mapping; the Korean text is unaffected,
matching `str.upper` on these inputs). -/
def strUpper (s : String) : String :=
  String.mk (s.data.map Char.toUpper)

/-- Python `str.lower()` (ASCII case mapping). -/
def strLower (s : String) : String :=
  String.mk (s.data.map Char.toLower)

/-- The tag-detection part of `parse_time_query`: active tags occurring as
substrings of the upper-cased question; the all-sensors keywords short-circuit
to every active tag. -/
def detect_tags (query : String) (activeTags : List String) : List String :=
  let queryUpper := strUpper query
  let detected := activeTags.filter (fun tag => strContains queryUpper tag)
  if ["모든", "전체", "all", "모두"].any
      (fun kw => strContains (strLower query) kw) then
    activeTags
  else detected

/-- Embeds `DynamicRAGEngine.parse_time_query`:
`(time_interval, aggregate_view, detected_tags)`. -/
def parse_time_query (query : String) (activeTags : List String) :
    String × String × List String :=
  let (interval, view) := resolve_time query
  (interval, view, detect_tags query activeTags)

/-- Structured content of the SQL emitted by
`DynamicRAGEngine.generate_dynamic_sql` (the f-string rendering is a fixed
template over these fields). -/
structure DynamicSQL where
  view : String
  aggFunctions : List String
  /-- Set to `None` when `detected_tags` was empty: no `tag_name IN (...)` filter
  appears in the generated query. -/
  tagFilter : Option (List String)
  /-- Set to `None` for the `influx_latest` branch (no bucket window); otherwise the
  `bucket >= NOW() - INTERVAL '...'` bound. -/
  timeWindow : Option String
  deriving Repr

/-- Embeds `DynamicRAGEngine.generate_dynamic_sql`: keyword-driven aggregate columns
plus the view/window/tag-filter skeleton of the emitted SQL. -/
def generate_dynamic_sql (query : String) (activeTags : List String) : DynamicSQL :=
  let (time_interval, view, detected_tags) := parse_time_query query activeTags
  let queryLower := strLower query
  let latest := view = "influx_latest"
  let agg1 := if strContains query "평균" ∨ strContains queryLower "average" ∨
      strContains queryLower "avg" then
      [if latest then "AVG(value) as average" else "AVG(avg) as average"] else []
  let agg2 := if strContains query "최대" ∨ strContains query "최고" ∨
      strContains queryLower "max" then
      agg1 ++ [if latest then "MAX(value) as maximum" else "MAX(max) as maximum"] else agg1
  let agg3 := if strContains query "최소" ∨ strContains query "최저" ∨
      strContains queryLower "min" then
      agg2 ++ [if latest then "MIN(value) as minimum" else "MIN(min) as minimum"] else agg2
  let agg4 := if strContains query "합계" ∨ strContains queryLower "sum" then
      agg3 ++ [if latest then "SUM(value) as total" else "SUM(sum) as total"] else agg3
  let aggs := if agg4.isEmpty then
      (if latest then ["value as last_value", "ts as timestamp"]
       else ["AVG(avg) as avg_value", "MIN(min) as min_value", "MAX(max) as max_value"])
    else agg4
  { view := view
    aggFunctions := aggs
    tagFilter := if detected_tags.isEmpty then none else some detected_tags
    timeWindow := if latest then none else some time_interval }

/-- A row returned by the aggregate query (fields used by the summaries). -/
structure QueryRow where
  tag_name : String
  average : Option ℚ
  maximum : Option ℚ
  minimum : Option ℚ
  deriving Repr

/-- Embeds `DynamicRAGEngine.execute_query`: the store's reply is either rows or a
raised exception; the `except` branch swallows the exception and returns the
empty list. -/
def execute_query (fetch : Except String (List QueryRow)) : List QueryRow :=
  match fetch with
  | .ok rows => rows
  | .error _ => []

/-- Two-decimal rendering used for `{...:.2f}` interpolations in summaries. -/
def fmt2 (q : ℚ) : String :=
  let n : ℤ := round (q * 100)
  let a := n.natAbs
  let pad := if a % 100 < 10 then "0" else ""
  (if n < 0 then "-" else "") ++ toString (a / 100) ++ "." ++ pad ++ toString (a % 100)

/-- The summary construction in
`DynamicRAGEngine.process_natural_language_query`: the no-results branch
yields the fixed Korean "no data" sentence. -/
def make_summary (query : String) (time_interval : String) (results : List QueryRow) :
    String :=
  if results.isEmpty then "해당 조건에 맞는 데이터가 없습니다."
  else if strContains query "평균" then
    "요청하신 " ++ time_interval ++ " 동안의 평균값:\n" ++
      String.intercalate "\n"
        ((results.filter (fun r => r.average.isSome)).map
          (fun r => r.tag_name ++ ": " ++ fmt2 (r.average.getD 0)))
  else if strContains query "최대" ∨ strContains query "최소" then
    "요청하신 " ++ time_interval ++ " 동안의 최대/최소값:\n" ++
      String.intercalate "\n"
        (results.map (fun r =>
          r.tag_name ++ ": " ++
          (if r.maximum.isSome then "최대 " ++ fmt2 (r.maximum.getD 0) else "") ++
          (if r.minimum.isSome then ", 최소 " ++ fmt2 (r.minimum.getD 0) else "")))
  else toString results.length ++ "개 센서의 " ++ time_interval ++ " 데이터를 조회했습니다."

/-- The response dict of `process_natural_language_query` (fields the claims
read; `metadata.timestamp` and `active_tags` echoes omitted). -/
structure NLResponse where
  sql : DynamicSQL
  data : List QueryRow
  row_count : ℕ
  summary : String
  deriving Repr

/-- Embeds `DynamicRAGEngine.process_natural_language_query`, with the store's reply
to the generated query passed in as `fetch`. -/
def process_natural_language_query (query : String) (activeTags : List String)
    (fetch : Except String (List QueryRow)) : NLResponse :=
  let time_interval := (parse_time_query query activeTags).1
  let sql := generate_dynamic_sql query activeTags
  let results := execute_query fetch
  { sql := sql
    data := results
    row_count := results.length
    summary := make_summary query time_interval results }

/-! ## Structured Formatter (5W1H, `w5h1_formatter.py`) -/

/-- Embeds `W5H1Response` dataclass (field `where` renamed `where_`: Lean keyword).
`timestamp` is filled by `__post_init__` with the construction-time clock. -/
structure W5H1Response where
  what : String
  why : String
  when : String
  where_ : String
  who : String
  how : String
  confidence : ℚ
  sources : List String
  timestamp : String
  deriving DecidableEq, Repr

/-- Embeds `W5H1Response()` followed by `__post_init__` at clock value `now`:
all six fields empty, `confidence = 1.0`, `sources = []`,
`timestamp = datetime.now().isoformat()`. -/
def w5h1_init (now : String) : W5H1Response :=
  ⟨"", "", "", "", "", "", 1, [], now⟩

/-- The six Who/What/Where/When/Why/How fields of a response, in the order
of the spec's contract. -/
def six_fields (r : W5H1Response) : List String :=
  [r.who, r.what, r.where_, r.when, r.why, r.how]

/-- Replace only the metadata construction timestamp of a response. -/
def set_timestamp (r : W5H1Response) (ts : String) : W5H1Response :=
  { r with timestamp := ts }

/-- One row of a `current_data` payload (the dict keys
`_summarize_data` / `extract_from_text` read; values as their `str`
renderings). -/
structure DataRow where
  tag_name : Option String
  value : Option String
  unit : Option String
  ts : Option String
  deriving Repr

/-- Embeds `W5H1Formatter._summarize_data`. -/
def summarize_data (dataList : List DataRow) : String :=
  if dataList.isEmpty then "데이터 없음"
  else
    String.intercalate ", "
      ((dataList.take 3).map fun d =>
        d.tag_name.getD "Unknown" ++ ": " ++ d.value.getD "N/A" ++ d.unit.getD "")

/-- The context dict fields read by `W5H1Formatter.extract_from_text`
(`None` = key absent). -/
structure W5Context where
  current_data : Option (List DataRow)
  timestamp : Option String
  location : Option String
  tag_name : Option String
  responsible : Option String
  reason : Option String
  method : Option String
  deriving Repr

/-- Models `re.search` of `\d{4}-\d{2}-\d{2}` anchored at the head. -/
def isDateHere : List Char → Bool
  | a :: b :: c :: d :: e :: f :: g :: h :: i :: j :: _ =>
    a.isDigit && b.isDigit && c.isDigit && d.isDigit && e == '-' &&
    f.isDigit && g.isDigit && h == '-' && i.isDigit && j.isDigit
  | _ => false

/-- Models `re.search` of `\d{2}:\d{2}` anchored at the head. -/
def isTimeHere : List Char → Bool
  | a :: b :: c :: d :: e :: _ =>
    a.isDigit && b.isDigit && c == ':' && d.isDigit && e.isDigit
  | _ => false

/-- Models `re.search(r'\d{4}-\d{2}-\d{2}|\d{2}:\d{2}', line)`. -/
def hasDateTimePattern : List Char → Bool
  | [] => false
  | c :: cs => isDateHere (c :: cs) || isTimeHere (c :: cs) || hasDateTimePattern cs

/-- Python `text.split(sep)` for a single-character separator, on character
lists (always returns at least one piece). -/
def splitOnChar (sep : Char) : List Char → List (List Char)
  | [] => [[]]
  | c :: rest =>
    match splitOnChar sep rest with
    | hd :: tl => if c == sep then [] :: hd :: tl else (c :: hd) :: tl
    | [] => if c == sep then [[], []] else [[c]]

/-- Python `str.strip()`: drop leading and trailing whitespace. -/
def stripChars (cs : List Char) : List Char :=
  ((cs.dropWhile Char.isWhitespace).reverse.dropWhile Char.isWhitespace).reverse

/-- One iteration of the line loop of `W5H1Formatter._parse_text_content`:
keyword fill of fields still empty.  The source's five sequential `if`
statements each read only the field they write, so they are rendered as one
simultaneous update. -/
def parse_line (r : W5H1Response) (rawLine : List Char) : W5H1Response :=
  let line := stripChars rawLine
  if line = [] then r
  else
    let lower := line.map Char.toLower
    let lineStr := String.mk line
    { r with
      what := if r.what = "" ∧
          ["센서", "값", "상태", "데이터"].any (fun w => listContains w.data lower) then
          lineStr else r.what
      why := if r.why = "" ∧
          ["때문", "이유", "원인"].any (fun w => listContains w.data lower) then
          lineStr else r.why
      when := if r.when = "" ∧ hasDateTimePattern line then lineStr else r.when
      where_ := if r.where_ = "" ∧
          ["위치", "지점", "구역"].any (fun w => listContains w.data lower) then
          lineStr else r.where_
      how := if r.how = "" ∧
          ["방법", "절차", "프로세스"].any (fun w => listContains w.data lower) then
          lineStr else r.how }

/-- Embeds `W5H1Formatter._parse_text_content`: line-by-line keyword fill of fields
still empty after context extraction. -/
def parse_text_content (text : String) (start : W5H1Response) : W5H1Response :=
  (splitOnChar (Char.ofNat 10) text.data).foldl parse_line start

/-- The `if context:` body of `W5H1Formatter.extract_from_text`: fill fields
of `r` from the context dict. -/
def context_extract (r : W5H1Response) (ctx : W5Context) : W5H1Response :=
  let r := match ctx.current_data with
    | some dl => { r with what := summarize_data dl }
    | none => r
  let r := match ctx.timestamp with
    | some t => { r with when := t }
    | none =>
      match ctx.current_data with
      | some (first :: _) =>
        match first.ts with
        | some ts => { r with when := ts }
        | none => r
      | _ => r
  let r := match ctx.location with
    | some loc => { r with where_ := loc }
    | none =>
      match ctx.tag_name with
      | some tag => { r with where_ := "센서 " ++ tag ++ " 위치" }
      | none => r
  let r := { r with who := ctx.responsible.getD "시스템 자동 관리" }
  let r := match ctx.reason with
    | some reasonText => { r with why := reasonText }
    | none => r
  match ctx.method with
  | some methodText => { r with how := methodText }
  | none => r

/-- Embeds `W5H1Formatter.extract_from_text` at clock value `now`
(`context = None` models calling without a context dict). -/
def extract_from_text (text : String) (context : Option W5Context) (now : String) :
    W5H1Response :=
  let r := w5h1_init now
  let r := match context with
    | none => r
    | some ctx => context_extract r ctx
  parse_text_content text r

/-- The per-field fill of `format_korean_response`:
`w5h1.field or "정보 없음"` (Python `or`: the placeholder replaces exactly the
empty string). -/
def kor_fill (field : String) : String :=
  if field = "" then "정보 없음" else field

/-- The six values substituted into the (fixed, six-slot) template string by
`W5H1Formatter.format_korean_response`, in template order. -/
def korean_template_fields (r : W5H1Response) : List String :=
  [kor_fill r.what, kor_fill r.why, kor_fill r.when,
   kor_fill r.where_, kor_fill r.who, kor_fill r.how]

/-- The five canonical sensor identifiers of the deployment (the keys of
`sensor_type_units` in `hallucination_prevention.py` / `response_validator.py`),
used as a representative active-tag set. -/
def demo_active_tags : List String := ["D100", "D101", "D102", "D200", "D300"]

/-! # Theorems -/

/-- Claim C1: For every audit sub-score quintuple in `[0,1]^5`, the overall
score equals the weighted formula `100*(0.25·dq + 0.30·tc + 0.25·acc +
0.15·eff + 0.05·inn)` clamped to `[0,100]` (the clamp being the identity
there), it always lies in `[0,100]`, and grade assignment is monotonic in the
overall score: no higher score receives a lower grade. -/
theorem overall_score_formula_and_grade_monotone
    (dq tc acc eff inn : ℚ)
    (hdq0 : 0 ≤ dq) (hdq1 : dq ≤ 1) (htc0 : 0 ≤ tc) (htc1 : tc ≤ 1)
    (hacc0 : 0 ≤ acc) (hacc1 : acc ≤ 1) (heff0 : 0 ≤ eff) (heff1 : eff ≤ 1)
    (hinn0 : 0 ≤ inn) (hinn1 : inn ≤ 1) :
    calculate_overall_score dq tc acc eff inn =
      (dq * (25/100) + tc * (30/100) + acc * (25/100) +
        eff * (15/100) + inn * (5/100)) * 100
    ∧ 0 ≤ calculate_overall_score dq tc acc eff inn
    ∧ calculate_overall_score dq tc acc eff inn ≤ 100
    ∧ ∀ s t : ℚ, s ≤ t → gradeRank (assign_grade s) ≤ gradeRank (assign_grade t) := by
  set w := (dq * (25/100) + tc * (30/100) + acc * (25/100) +
      eff * (15/100) + inn * (5/100)) * 100 with hw
  have h0 : 0 ≤ w := by positivity
  have h100 : w ≤ 100 := by nlinarith
  have hclamp : calculate_overall_score dq tc acc eff inn = w := by
    rw [calculate_overall_score, ← hw, max_eq_left h0, min_eq_left h100]
  refine ⟨hclamp, by rw [hclamp]; exact h0, by rw [hclamp]; exact h100, ?_⟩
  intro s t hst
  unfold assign_grade gradeRank
  split_ifs <;> simp <;> linarith

/-- Witness for C1 at the concrete quintuple `(1, 1, 1, 1, 1)` and the
concrete score pair `(60, 90)`. -/
theorem overall_score_formula_and_grade_monotone_witness :
    calculate_overall_score 1 1 1 1 1 =
      ((1:ℚ) * (25/100) + 1 * (30/100) + 1 * (25/100) +
        1 * (15/100) + 1 * (5/100)) * 100
    ∧ gradeRank (assign_grade 60) ≤ gradeRank (assign_grade 90) := by
  have h := overall_score_formula_and_grade_monotone 1 1 1 1 1
    (by norm_num) (by norm_num) (by norm_num) (by norm_num) (by norm_num)
    (by norm_num) (by norm_num) (by norm_num) (by norm_num) (by norm_num)
  exact ⟨h.1, h.2.2.2 60 90 (by norm_num)⟩

/-- Claim C3: For a completeness analysis with 60 expected one-minute samples
and 57 actual distinct sample timestamps, `completeness_ratio` is exactly
`57/60 = 0.95` and the grade is `"GOOD"`; a ratio of `0.94` grades
`"AVERAGE"`, so `0.95` is the inclusive lower boundary of the GOOD band. -/
theorem completeness_boundary_good
    (expected actual : List ℕ)
    (he : expected.length = 60) (ha : actual.length = 57) :
    completeness_value expected actual = 95/100
    ∧ assign_quality_grade (completeness_value expected actual) = "GOOD"
    ∧ assign_quality_grade (94/100) = "AVERAGE" := by
  have hr : completeness_value expected actual = 95/100 := by
    rw [completeness_value, he, ha]; norm_num
  have hgood : assign_quality_grade (95/100) = "GOOD" := by
    norm_num [assign_quality_grade, quality_grades,
      List.find?_cons_of_pos, List.find?_cons_of_neg]
  have havg : assign_quality_grade (94/100) = "AVERAGE" := by
    norm_num [assign_quality_grade, quality_grades,
      List.find?_cons_of_pos, List.find?_cons_of_neg]
  exact ⟨hr, by rw [hr]; exact hgood, havg⟩

/-- Witness for C3 on concrete timestamp lists of lengths 60 and 57. -/
theorem completeness_boundary_good_witness :
    completeness_value (List.range 60) (List.range 57) = 95/100
    ∧ assign_quality_grade (completeness_value (List.range 60) (List.range 57)) = "GOOD"
    ∧ assign_quality_grade (94/100) = "AVERAGE" :=
  completeness_boundary_good (List.range 60) (List.range 57)
    (by simp) (by simp)

/-- Claim C5: Reinforcement update after an audit: overall score below 60
multiplies the learning rate by 1.2 with ceiling 0.3; above 85 multiplies it
by the 0.95 decay with floor 0.01; overall below 50 multiplies the penalty
multiplier by 1.2 with ceiling 3.0; above 80 multiplies it by 0.9 with floor
1.0; in the remaining ranges each parameter is unchanged. -/
theorem reinforcement_update_rules (overall lr pm : ℚ) :
    (overall < 60 → update_learning_rate overall lr = min (3/10) (lr * (12/10)))
    ∧ (overall > 85 → update_learning_rate overall lr = max (1/100) (lr * (95/100)))
    ∧ (60 ≤ overall → overall ≤ 85 → update_learning_rate overall lr = lr)
    ∧ (overall < 50 → update_penalty_multiplier overall pm = min 3 (pm * (12/10)))
    ∧ (overall > 80 → update_penalty_multiplier overall pm = max 1 (pm * (9/10)))
    ∧ (50 ≤ overall → overall ≤ 80 → update_penalty_multiplier overall pm = pm) := by
  refine ⟨fun h => ?_, fun h => ?_, fun h h' => ?_, fun h => ?_, fun h => ?_, fun h h' => ?_⟩ <;>
    simp only [update_learning_rate, update_penalty_multiplier] <;>
    split_ifs <;> first | rfl | linarith

/-- Witness for C5: a failing audit (score 55) raises the learning rate and a
strong audit (score 90) decays the penalty multiplier. -/
theorem reinforcement_update_rules_witness :
    update_learning_rate 55 (1/10) = min (3/10) ((1/10) * (12/10))
    ∧ update_penalty_multiplier 90 2 = max 1 (2 * (9/10)) :=
  ⟨(reinforcement_update_rules 55 (1/10) 2).1 (by norm_num),
   (reinforcement_update_rules 90 (1/10) 2).2.2.2.2.1 (by norm_num)⟩

/-- Helper for C4: folding the `recent_scores` update over new scores from
any state holding at most 10 entries keeps exactly the trailing 10 of the
arrival-ordered sequence. -/
theorem foldl_update_recent_scores (xs : List ℚ) :
    ∀ acc : List ℚ, acc.length ≤ 10 →
      xs.foldl update_recent_scores acc =
        (acc ++ xs).drop ((acc ++ xs).length - 10) := by
  induction xs with
  | nil =>
    intro acc hacc
    simp [Nat.sub_eq_zero_of_le hacc]
  | cons x xs ih =>
    intro acc hacc
    rw [List.foldl_cons]
    by_cases hlen : acc.length = 10
    · -- the window is full: the oldest entry is evicted
      have hne : acc ≠ [] := by
        intro h; rw [h] at hlen; simp at hlen
      obtain ⟨a, acc', rfl⟩ := List.exists_cons_of_ne_nil hne
      have hlen' : acc'.length = 9 := by
        simp only [List.length_cons] at hlen; omega
      have hupd : update_recent_scores (a :: acc') x = acc' ++ [x] := by
        unfold update_recent_scores
        rw [if_pos (by simp [hlen'])]
        simp
      rw [hupd, ih (acc' ++ [x]) (by simp [hlen'])]
      have e1 : (acc' ++ [x]) ++ xs = acc' ++ x :: xs := by simp
      have e2 : (a :: acc') ++ x :: xs = a :: (acc' ++ x :: xs) := by simp
      rw [e1, e2]
      have l1 : (acc' ++ x :: xs).length - 10 = xs.length := by
        simp [hlen']; omega
      have l2 : (a :: (acc' ++ x :: xs)).length - 10 = xs.length + 1 := by
        simp [hlen']
      rw [l1, l2, List.drop_succ_cons]
    · -- room left: plain append
      have hlt : acc.length < 10 := lt_of_le_of_ne hacc hlen
      have hupd : update_recent_scores acc x = acc ++ [x] := by
        unfold update_recent_scores
        rw [if_neg (by simp [List.length_append]; omega)]
      rw [hupd, ih (acc ++ [x]) (by simp [List.length_append]; omega)]
      simp [List.append_assoc]

/-- Claim C4: After every learning-history update the retained `recent_scores`
list has at most 10 entries and equals the most recent (at most 10) overall
scores in arrival order — the oldest score is evicted first once an eleventh
arrives. -/
theorem recent_scores_window (scores : List ℚ) :
    (recent_scores_after scores).length ≤ 10
    ∧ recent_scores_after scores = scores.drop (scores.length - 10) := by
  have h := foldl_update_recent_scores scores [] (by simp)
  rw [List.nil_append] at h
  refine ⟨?_, h⟩
  rw [recent_scores_after, h, List.length_drop]
  omega

/-- Claim C2: Numeric-consistency against the knowledge base: a response
quoting `151.0` against reference value `150.0` (difference below 50%) is
consistent and leaves the confidence at `1.0` with no issues, while a
response quoting `900.0` against `150.0` (difference above 50%) is flagged
as a mismatch and halves the confidence. -/
theorem kb_numeric_fifty_percent_rule :
    kb_mismatch [150] [151] = none
    ∧ (validate_response (some ([150], [151])) [] [] [] [] [] false false false 0 0).confidence = 1
    ∧ (validate_response (some ([150], [151])) [] [] [] [] [] false false false 0 0).is_valid = true
    ∧ kb_mismatch [150] [900] = some (150, 900)
    ∧ (validate_response (some ([150], [900])) [] [] [] [] [] false false false 0 0).issues
        = [Issue.kbMismatch 150 900]
    ∧ (validate_response (some ([150], [900])) [] [] [] [] [] false false false 0 0).confidence = 1/2 := by
  have h1 : kb_mismatch [150] [151] = none := by
    norm_num [kb_mismatch, List.findSome?]
  have h2 : kb_mismatch [150] [900] = some (150, 900) := by
    norm_num [kb_mismatch, List.findSome?]
  refine ⟨h1, ?_, ?_, h2, ?_, ?_⟩
  all_goals
    simp [validate_response, validation_checks, kb_check_entry, h1, h2, vstep,
      numeric_consistency_issues, sensor_range_issues, unit_consistency_issues,
      temporal_inconsistent, certainty_overconfident, List.foldl]
  all_goals norm_num

/-- Helper for C10: `vstep` folding preserves positivity, the unit upper
bound, and "no issues implies untouched confidence", provided every check
with a true failure flag carries at least one issue and a factor in (0,1]. -/
theorem foldl_vstep_inv :
    ∀ cs : List (Bool × List Issue × ℚ),
      (∀ c ∈ cs, 0 < c.2.2 ∧ c.2.2 ≤ 1 ∧ (c.1 = true → c.2.1 ≠ [])) →
      ∀ st : List Issue × ℚ,
        0 < st.2 ∧ st.2 ≤ 1 ∧ (st.1 = [] → st.2 = 1) →
        0 < (cs.foldl (fun st c => vstep st c.1 c.2.1 c.2.2) st).2
        ∧ (cs.foldl (fun st c => vstep st c.1 c.2.1 c.2.2) st).2 ≤ 1
        ∧ ((cs.foldl (fun st c => vstep st c.1 c.2.1 c.2.2) st).1 = [] →
            (cs.foldl (fun st c => vstep st c.1 c.2.1 c.2.2) st).2 = 1) := by
  intro cs
  induction cs with
  | nil => intro _ st hst; simpa using hst
  | cons c cs ih =>
    intro hcs st hst
    obtain ⟨hf0, hf1, hiss⟩ := hcs c (List.mem_cons_self c cs)
    rw [List.foldl_cons]
    refine ih (fun c' hc' => hcs c' (List.mem_cons_of_mem c hc')) _ ?_
    obtain ⟨h0, h1, h2⟩ := hst
    cases hfail : c.1 with
    | false => simpa [vstep, hfail] using ⟨h0, h1, h2⟩
    | true =>
      simp only [vstep, hfail, if_true]
      refine ⟨mul_pos h0 hf0, by nlinarith, ?_⟩
      intro habs
      rcases List.append_eq_nil.mp habs with ⟨_, hiss1⟩
      exact absurd hiss1 (hiss hfail)

/-- Helper for C10: every entry of the check list carries a factor in (0,1]
and, when flagged as failed, at least one issue. -/
theorem validation_checks_sound (kb : Option (List ℚ × List ℚ))
    (temps pressures phs : List ℚ)
    (unknownSensors wrongUnitSensors : List String)
    (isHistorical hasFuturePattern contradictionFound : Bool)
    (overconfidentCount uncertaintyCount : ℕ) :
    ∀ c ∈ validation_checks kb temps pressures phs unknownSensors
        wrongUnitSensors isHistorical hasFuturePattern contradictionFound
        overconfidentCount uncertaintyCount,
      0 < c.2.2 ∧ c.2.2 ≤ 1 ∧ (c.1 = true → c.2.1 ≠ []) := by
  intro c hc
  simp only [validation_checks, List.mem_cons, List.not_mem_nil, or_false] at hc
  rcases hc with h | h | h | h | h | h | h
  · -- knowledge-base check
    rcases kb with _ | ⟨kbN, respN⟩
    · subst h
      refine ⟨by norm_num [kb_check_entry], by norm_num [kb_check_entry],
        by simp [kb_check_entry]⟩
    · rcases hkb : kb_mismatch kbN respN with _ | ⟨a, b⟩ <;>
        subst h <;>
        refine ⟨by norm_num [kb_check_entry, hkb], by norm_num [kb_check_entry, hkb],
          by simp [kb_check_entry, hkb]⟩
  · subst h
    refine ⟨by norm_num, by norm_num, ?_⟩
    intro hfail
    simpa [List.isEmpty_iff] using hfail
  · subst h
    refine ⟨by norm_num, by norm_num, ?_⟩
    intro hfail
    simpa [List.isEmpty_iff] using hfail
  · subst h
    refine ⟨by norm_num, by norm_num, ?_⟩
    intro hfail
    simpa [List.isEmpty_iff] using hfail
  · subst h; exact ⟨by norm_num, by norm_num, fun _ => by simp⟩
  · subst h; exact ⟨by norm_num, by norm_num, fun _ => by simp⟩
  · subst h; exact ⟨by norm_num, by norm_num, fun _ => by simp⟩

/-- Claim C10: For every response and context, `validate_response` returns a
confidence in `(0, 1]`, `is_valid` holds exactly when the issues list is
empty, and — since every check that lowers the confidence also appends an
issue — a valid result has confidence exactly `1.0`. -/
theorem validate_response_confidence_invariant
    (kb : Option (List ℚ × List ℚ)) (temps pressures phs : List ℚ)
    (unknownSensors wrongUnitSensors : List String)
    (isHistorical hasFuturePattern contradictionFound : Bool)
    (overconfidentCount uncertaintyCount : ℕ) :
    0 < (validate_response kb temps pressures phs unknownSensors wrongUnitSensors
          isHistorical hasFuturePattern contradictionFound
          overconfidentCount uncertaintyCount).confidence
    ∧ (validate_response kb temps pressures phs unknownSensors wrongUnitSensors
          isHistorical hasFuturePattern contradictionFound
          overconfidentCount uncertaintyCount).confidence ≤ 1
    ∧ ((validate_response kb temps pressures phs unknownSensors wrongUnitSensors
          isHistorical hasFuturePattern contradictionFound
          overconfidentCount uncertaintyCount).is_valid = true ↔
        (validate_response kb temps pressures phs unknownSensors wrongUnitSensors
          isHistorical hasFuturePattern contradictionFound
          overconfidentCount uncertaintyCount).issues = [])
    ∧ ((validate_response kb temps pressures phs unknownSensors wrongUnitSensors
          isHistorical hasFuturePattern contradictionFound
          overconfidentCount uncertaintyCount).is_valid = true →
        (validate_response kb temps pressures phs unknownSensors wrongUnitSensors
          isHistorical hasFuturePattern contradictionFound
          overconfidentCount uncertaintyCount).confidence = 1) := by
  have hinv := foldl_vstep_inv
    (validation_checks kb temps pressures phs unknownSensors wrongUnitSensors
      isHistorical hasFuturePattern contradictionFound
      overconfidentCount uncertaintyCount)
    (validation_checks_sound kb temps pressures phs unknownSensors
      wrongUnitSensors isHistorical hasFuturePattern contradictionFound
      overconfidentCount uncertaintyCount)
    ([], 1) ⟨one_pos, le_refl 1, fun _ => rfl⟩
  refine ⟨hinv.1, hinv.2.1, ?_, ?_⟩
  · simp only [validate_response, List.isEmpty_iff]
  · intro h
    simp only [validate_response, List.isEmpty_iff] at h
    exact hinv.2.2 h
/-- Witness for C10 on a clean response: all checks pass, so the result is
valid with confidence exactly 1. -/
theorem validate_response_confidence_invariant_witness :
    0 < (validate_response none [] [] [] [] [] false false false 0 0).confidence
    ∧ (validate_response none [] [] [] [] [] false false false 0 0).confidence = 1 :=
  ⟨(validate_response_confidence_invariant none [] [] [] [] []
      false false false 0 0).1,
   (validate_response_confidence_invariant none [] [] [] [] []
      false false false 0 0).2.2.2 (by decide)⟩

/-- Claim C6: The question "최근 1시간" (and the English "last 1 hour"), which
names no sensor identifier and no all-sensors keyword, resolves to a one-hour
window at minute resolution (`influx_agg_1m`) with an empty detected-tag set,
and the generated query carries no identifier restriction; every question
matching no time-phrase pattern defaults to the same one-hour window at
minute resolution. -/
theorem one_hour_minute_resolution :
    parse_time_query "최근 1시간" demo_active_tags = ("1 hours", "influx_agg_1m", [])
    ∧ (generate_dynamic_sql "최근 1시간" demo_active_tags).view = "influx_agg_1m"
    ∧ (generate_dynamic_sql "최근 1시간" demo_active_tags).tagFilter = none
    ∧ parse_time_query "last 1 hour" demo_active_tags = ("1 hours", "influx_agg_1m", [])
    ∧ (generate_dynamic_sql "last 1 hour" demo_active_tags).tagFilter = none
    ∧ (∀ q : String, find_time_mapping q = none →
        resolve_time q = ("1 hour", "influx_agg_1m")) := by
  refine ⟨by decide, by decide, by decide, by decide, by decide, ?_⟩
  intro q h
  simp [resolve_time, h]

/-- Witness for C6: the pattern-free question "hello" takes the default
one-hour window at minute resolution. -/
theorem one_hour_minute_resolution_witness :
    resolve_time "hello" = ("1 hour", "influx_agg_1m") :=
  one_hour_minute_resolution.2.2.2.2.2 "hello" rfl

/-- Claim C7, counterexample: In `create_structured_response`, a current value
of `-1.0` under the rule `warn_min = -0.5, warn_max = 10, crit_min = 0.0,
crit_max = 10` breaches the critical minimum (`-1 < 0`) yet is classified as
merely `"warning"`: the Python truthiness guard `crit_min and value <
crit_min` skips a critical bound that equals `0.0`. -/
theorem critical_zero_bound_counterexample :
    ((-1 : ℚ) < 0)
    ∧ sensor_status (-1) (some (-(1/2))) (some 10) (some 0) (some 10) = "warning" := by
  constructor
  · norm_num
  · norm_num [sensor_status, truthy]

/-- Claim C7, amended: A value breaching a critical threshold is always
classified `critical` (never merely `warning`) by the QC-focused analysis
(`_collect_qc_focused_data`); the status computed by
`create_structured_response` does the same provided the breached critical
bound is present and nonzero (a bound of `0.0` is skipped by the truthiness
guard, as the counterexample shows). -/
theorem critical_breach_classified_critical :
    (∀ value min_val max_val warn_min warn_max crit_min crit_max : ℚ,
        value > crit_max ∨ value < crit_min →
        classify_severity value min_val max_val warn_min warn_max crit_min crit_max =
          Severity.critical)
    ∧ (∀ (value c : ℚ) (wmin wmax cmax : Option ℚ), c ≠ 0 → value < c →
        sensor_status value wmin wmax (some c) cmax = "critical")
    ∧ (∀ (value c : ℚ) (wmin wmax cmin : Option ℚ), c ≠ 0 → value > c →
        sensor_status value wmin wmax cmin (some c) = "critical") := by
  refine ⟨?_, ?_, ?_⟩
  · intro value min_val max_val warn_min warn_max crit_min crit_max h
    unfold classify_severity
    rw [if_pos h]
  · intro value c wmin wmax cmax hc hv
    unfold sensor_status
    split_ifs with h1 h2 <;>
      first | rfl | exact absurd (by simp [truthy, hc, hv]) h1
  · intro value c wmin wmax cmin hc hv
    unfold sensor_status
    split_ifs with h1 h2 <;>
      first | rfl | exact absurd (by simp [truthy, hc, hv]) h1

/-- Witness for C7 (amended) at concrete breaches: value 200 above
`crit_max = 150`, value −5 below a nonzero `crit_min = 1`, and value 20
above a nonzero `crit_max = 10`. -/
theorem critical_breach_classified_critical_witness :
    classify_severity 200 0 100 10 90 5 150 = Severity.critical
    ∧ sensor_status (-5) none none (some 1) none = "critical"
    ∧ sensor_status 20 none none none (some 10) = "critical" :=
  ⟨critical_breach_classified_critical.1 200 0 100 10 90 5 150 (by norm_num),
   critical_breach_classified_critical.2.1 (-5) 1 none none none (by norm_num) (by norm_num),
   critical_breach_classified_critical.2.2 20 10 none none none (by norm_num) (by norm_num)⟩

/-- Helper for C8: a line-parse step never reads or writes the construction
timestamp, so it commutes with setting it. -/
theorem parse_line_set_timestamp (r : W5H1Response) (line : List Char) (ts : String) :
    parse_line (set_timestamp r ts) line = set_timestamp (parse_line r line) ts := by
  unfold parse_line set_timestamp
  by_cases h : stripChars line = []
  · simp only [if_pos h]
  · simp only [if_neg h]

/-- Helper for C8: the whole text-parse pass commutes with setting the
construction timestamp. -/
theorem parse_text_content_set_timestamp (text : String) (r : W5H1Response) (ts : String) :
    parse_text_content text (set_timestamp r ts) =
      set_timestamp (parse_text_content text r) ts := by
  unfold parse_text_content
  generalize splitOnChar (Char.ofNat 10) text.data = lines
  induction lines generalizing r with
  | nil => rfl
  | cons l ls ih =>
    rw [List.foldl_cons, List.foldl_cons, parse_line_set_timestamp, ih]

/-- Helper for C8: context extraction never reads or writes the construction
timestamp, so it commutes with setting it. -/
theorem context_extract_set_timestamp (r : W5H1Response) (ctx : W5Context) (ts : String) :
    context_extract (set_timestamp r ts) ctx =
      set_timestamp (context_extract r ctx) ts := by
  rcases ctx with ⟨cd, t, l, tg, resp, re, me⟩
  rcases cd with _ | ⟨_ | ⟨⟨ftag, fval, funit, fts⟩, rest⟩⟩ <;>
    rcases t with _ | t <;>
    rcases l with _ | l <;>
    rcases tg with _ | tg <;>
    rcases re with _ | re <;>
    rcases me with _ | me <;>
    first
      | rfl
      | (rcases fts with _ | fts <;> rfl)

/-- Helper for C8: the whole extraction at clock `now` equals the extraction
at a fixed clock with only the metadata timestamp replaced. -/
theorem extract_from_text_clock (text : String) (ctx : Option W5Context) (now : String) :
    extract_from_text text ctx now =
      set_timestamp (extract_from_text text ctx "") now := by
  unfold extract_from_text
  have hinit : w5h1_init now = set_timestamp (w5h1_init "") now := rfl
  rcases ctx with _ | ctx <;> dsimp only
  · rw [hinit, parse_text_content_set_timestamp]
  · rw [hinit, context_extract_set_timestamp, parse_text_content_set_timestamp]

/-- Claim C8, counterexample: On an empty context and empty text, the `why`
field that cannot be filled is left as the empty string — not as the
explicit no-information placeholder "정보 없음" (which only the Korean
template renderer substitutes); the markdown renderer would omit it. -/
theorem formatter_empty_field_counterexample :
    (extract_from_text "" none "T").why = "" ∧ ("" : String) ≠ "정보 없음" := by
  exact ⟨rfl, by decide⟩

/-- Claim C8, amended: The six Who/What/Where/When/Why/How fields of
`extract_from_text` are a pure function of the text and context (two calls
at different clock values agree byte-for-byte on all six fields; only the
metadata timestamp differs); a field that cannot be filled degrades to the
empty string, and it is `format_korean_response` that renders all six fields
with the explicit "정보 없음" placeholder substituted for each empty field —
no field is ever omitted or empty there. -/
theorem formatter_deterministic_and_korean_placeholder :
    (∀ (text : String) (ctx : Option W5Context) (now₁ now₂ : String),
        six_fields (extract_from_text text ctx now₁) =
          six_fields (extract_from_text text ctx now₂))
    ∧ (∀ r : W5H1Response, (korean_template_fields r).length = 6)
    ∧ (∀ r : W5H1Response, ∀ s ∈ korean_template_fields r, s ≠ "")
    ∧ (∀ now : String, korean_template_fields (extract_from_text "" none now) =
        ["정보 없음", "정보 없음", "정보 없음", "정보 없음", "정보 없음", "정보 없음"]) := by
  have hfill : ∀ x : String, kor_fill x ≠ "" := by
    intro x
    unfold kor_fill
    split_ifs with h
    · decide
    · exact h
  refine ⟨?_, fun r => rfl, ?_, ?_⟩
  · intro text ctx now₁ now₂
    rw [extract_from_text_clock text ctx now₁, extract_from_text_clock text ctx now₂]
    rfl
  · intro r s hs
    simp only [korean_template_fields, List.mem_cons, List.not_mem_nil, or_false] at hs
    rcases hs with h | h | h | h | h | h <;> subst h <;> exact hfill _
  · intro now
    rw [extract_from_text_clock]
    rfl

/-- Witness for C8 (amended): concrete determinism instance, and the
placeholder string produced by the Korean renderer is itself nonempty. -/
theorem formatter_deterministic_witness :
    six_fields (extract_from_text "abc" none "T1") =
      six_fields (extract_from_text "abc" none "T2")
    ∧ ("정보 없음" : String) ≠ "" :=
  ⟨formatter_deterministic_and_korean_placeholder.1 "abc" none "T1" "T2",
   formatter_deterministic_and_korean_placeholder.2.2.1 (w5h1_init "T") "정보 없음"
     (by decide)⟩

/-- Claim C9: A failed execution of the translated query is absorbed: the
store's exception yields an empty result list (never propagates), and the
returned answer then carries the fixed human-readable no-results summary. -/
theorem failed_query_absorbed (query : String) (activeTags : List String) (err : String) :
    execute_query (Except.error err) = []
    ∧ (process_natural_language_query query activeTags (Except.error err)).data = []
    ∧ (process_natural_language_query query activeTags (Except.error err)).row_count = 0
    ∧ (process_natural_language_query query activeTags (Except.error err)).summary =
        "해당 조건에 맞는 데이터가 없습니다." := by
  refine ⟨rfl, ?_, ?_, ?_⟩ <;>
    simp [process_natural_language_query, execute_query, make_summary]

end WaterApp
